import Mathlib

/-!
Formal model of the `metaworld-algorithms` training-run core.

The development shallowly embeds two source files:

* `src/metaworld_algorithms/rl/algorithms/mtppo.py` — the on-policy MTPPO
  algorithm: `initialize`, `sample_action`, `eval_action`, `update` and the
  two inner update steps `update_policy` / `update_value_function`.
* `src/metaworld_algorithms/experiment.py` — the run orchestrator
  (`Experiment.run`, `Experiment.enable_wandb`).

Modelling conventions:

* Arrays are represented by their shapes (`List Nat`); the numeric kernels
  (network forward passes, gradients, distribution sampling) are outside the
  system's specified core, so their results are represented by free
  constructors that record exactly the inputs the source passes them.  This
  keeps every operation a total, executable Lean function while preserving
  which data each result depends on.
* `jax.random.split` is modelled by an arbitrary deterministic injective
  splitting function on `Nat` keys; only determinism and freshness of the
  split keys matter to the claims.
* Python `assert` failures and `TypeError`s are modelled as `Except` errors.
* Fields read with `dict.get` are modelled as `Option`; Python truthiness of
  an optional string (`if not x`) treats both `None` and `""` as absent.
-/

/-! ## PRNG keys (jax.random) -/

/-- A PRNG key (`jax.random.PRNGKey`); the bit-level contents are opaque, so a
natural-number token models it. -/
abbrev Key := Nat

/-- Model of `jax.random.split(key)` returning two fresh keys
`(key, action_key)`.  The concrete arithmetic is an arbitrary deterministic
injective choice; the source only relies on determinism and freshness. -/
def splitKey (k : Key) : Key × Key := (2 * k + 1, 2 * k + 2)

/-- Model of `jax.random.split(key, 3)` returning three fresh keys. -/
def splitKey3 (k : Key) : Key × Key × Key := (3 * k + 1, 3 * k + 2, 3 * k + 3)

/-! ## Gymnasium spaces (`gym.spaces`), as consumed by `MTPPO.initialize` -/

/-- A gymnasium space.  A `box` carries per-dimension lower and upper bounds
(`none` models an infinite bound, as `gym.spaces.Box` admits `-inf`/`inf`)
and its shape; the other constructors stand for the non-box space families. -/
inductive GymSpace where
  | box (low high : List (Option Rat)) (shape : List Nat)
  | discrete (n : Nat)
  | multiBinary (n : Nat)
deriving DecidableEq, Repr

/-- Python `isinstance(space, gym.spaces.Box)`. -/
def GymSpace.isBox : GymSpace → Bool
  | .box _ _ _ => true
  | _ => false

/-- A box space all of whose bounds are finite (a bounded continuous box). -/
def GymSpace.isBoundedBox : GymSpace → Bool
  | .box low high _ => low.all Option.isSome && high.all Option.isSome
  | _ => false

/-- The `shape` attribute of a space (empty for non-box spaces, which the
source never reaches past its asserts). -/
def GymSpace.shapeOf : GymSpace → List Nat
  | .box _ _ s => s
  | _ => []

/-- Result of `np.prod` on a shape (`np.prod([]) = 1`). -/
def listProd (l : List Nat) : Nat := l.foldr (· * ·) 1

/-! ## MTPPO data model (mtppo.py) -/

/-- Parameters of the policy network.  `init` records the inputs of
`ContinuousActionPolicy(...)` / `policy_net.init(actor_init_key, dummy_obs)`:
the action dimension `int(np.prod(action_space.shape))`, the init key, and the
dummy-observation shape `[num_tasks, *obs_shape]`.  `grad` records one
`apply_gradients` step whose gradient came from `policy_loss` seeded with
`policy_loss_key`.  The numeric contents are out of the specified core, so the
constructors are free. -/
inductive PolicyParams where
  | init (actionDim : Nat) (initKey : Key) (dummyObsShape : List Nat)
  | grad (prev : PolicyParams) (lossKey : Key)
deriving DecidableEq, Repr

/-- Parameters of the value-function network, analogous to `PolicyParams`;
`value_function_loss` consumes no randomness, so `grad` records no key. -/
inductive VfParams where
  | init (initKey : Key) (dummyObsShape : List Nat)
  | grad (prev : VfParams)
deriving DecidableEq, Repr

/-- A `flax` `TrainState` for the policy: step counter, parameters, and an
opaque optimizer-state token advanced by `apply_gradients`. -/
structure PolicyTrainState where
  step : Nat
  params : PolicyParams
  optState : Nat
deriving DecidableEq, Repr

/-- A `flax` `TrainState` for the value function. -/
structure VfTrainState where
  step : Nat
  params : VfParams
  optState : Nat
deriving DecidableEq, Repr

/-- The `TrainState.apply_gradients` call on the policy train state: the step
counter advances, the parameters take one gradient step, the optimizer state
moves. -/
def PolicyTrainState.applyGradients (ts : PolicyTrainState) (lossKey : Key) :
    PolicyTrainState :=
  { step := ts.step + 1, params := .grad ts.params lossKey,
    optState := ts.optState + 1 }

/-- The `TrainState.apply_gradients` call on the value-function train state. -/
def VfTrainState.applyGradients (ts : VfTrainState) : VfTrainState :=
  { step := ts.step + 1, params := .grad ts.params, optState := ts.optState + 1 }

/-- An action value produced on the accelerator.  The two constructors are the
two ways mtppo.py produces actions: `dist.sample(seed=action_key)` after
`policy.apply_fn(policy.params, observation)`, and `dist.mode()`.  They are
free constructors recording exactly the inputs the source passes, so an action
is by construction a deterministic function of those inputs. -/
inductive ActionV where
  | sampled (params : PolicyParams) (obs : List Nat) (seed : Key)
  | mode (params : PolicyParams) (obs : List Nat)
deriving DecidableEq, Repr

/-- The MTPPO algorithm state (class `MTPPO(OnPolicyAlgorithm[MTPPOConfig])`):
policy and value-function train states, the internal PRNG key, and the
static configuration fields. -/
structure MTPPO where
  num_tasks : Nat
  policy : PolicyTrainState
  value_function : VfTrainState
  key : Key
  gamma : Rat
  clip_eps : Rat
  clip_vf_loss : Bool
  entropy_coefficient : Rat
  vf_coefficient : Rat
  normalize_advantages : Bool
deriving DecidableEq, Repr

/-- The `MTPPOConfig` dataclass fields that `MTPPO.initialize` reads (the
network sub-configs only size the free parameter constructors). -/
structure MTPPOConfigM where
  num_tasks : Nat
  gamma : Rat
  clip_eps : Rat
  clip_vf_loss : Bool
  entropy_coefficient : Rat
  vf_coefficient : Rat
  normalize_advantages : Bool
deriving DecidableEq, Repr

/-- The part of `EnvConfig` that `MTPPO.initialize` reads: the observation and
action spaces. -/
structure EnvConfigM where
  observation_space : GymSpace
  action_space : GymSpace
deriving DecidableEq, Repr

/-- Errors of `MTPPO.initialize`: the two `assert isinstance(..., gym.spaces.Box)`
checks ("Non-box spaces currently not supported."). -/
inductive InitError where
  | unsupportedSpace
deriving DecidableEq, Repr

/-- Embedding of `MTPPO.initialize(config, env_config, seed)` (mtppo.py lines
97-148): assert both spaces are `gym.spaces.Box`; split
`jax.random.PRNGKey(seed)` into algorithm, actor-init and vf-init keys; build
`dummy_obs` of shape `[num_tasks, *obs_shape]`; create policy and
value-function train states sized from the spaces; return the `MTPPO` state. -/
def MTPPO.init (config : MTPPOConfigM) (env_config : EnvConfigM) (seed : Nat) :
    Except InitError MTPPO :=
  if env_config.action_space.isBox then
   if env_config.observation_space.isBox then
    let ks := splitKey3 seed
    let dummyObsShape := config.num_tasks :: env_config.observation_space.shapeOf
    let actionDim := listProd env_config.action_space.shapeOf
    .ok { num_tasks := config.num_tasks,
          policy := { step := 0,
                      params := .init actionDim ks.2.1 dummyObsShape,
                      optState := 0 },
          value_function := { step := 0,
                              params := .init ks.2.2 dummyObsShape,
                              optState := 0 },
          key := ks.1,
          gamma := config.gamma,
          clip_eps := config.clip_eps,
          clip_vf_loss := config.clip_vf_loss,
          entropy_coefficient := config.entropy_coefficient,
          vf_coefficient := config.vf_coefficient,
          normalize_advantages := config.normalize_advantages }
   else .error .unsupportedSpace
  else .error .unsupportedSpace

/-- Embedding of the jitted helper `_sample_action(policy, observation, key)`
(mtppo.py lines 33-41): split the key into `(key, action_key)`, sample from
the policy distribution with `action_key`, return `(action, key)`. -/
def sampleActionRaw (policy : PolicyTrainState) (observation : List Nat)
    (key : Key) : ActionV × Key :=
  let ks := splitKey key
  (ActionV.sampled policy.params observation ks.2, ks.1)

/-- Embedding of the jitted helper `_eval_action(policy, observation)`
(mtppo.py lines 44-50): the mode of the policy distribution. -/
def evalActionRaw (policy : PolicyTrainState) (observation : List Nat) :
    ActionV :=
  ActionV.mode policy.params observation

/-- Embedding of `MTPPO.sample_action(self, observation)` (mtppo.py lines
161-164): call `_sample_action` with the state's key and return
`(self.replace(key=key), action)`. -/
def MTPPO.sample_action (a : MTPPO) (observation : List Nat) :
    MTPPO × ActionV :=
  let r := sampleActionRaw a.policy observation a.key
  ({ a with key := r.2 }, r.1)

/-- Embedding of `MTPPO.eval_action(self, observations)` (mtppo.py lines
178-180). -/
def MTPPO.eval_action (a : MTPPO) (observations : List Nat) : ActionV :=
  evalActionRaw a.policy observations

/-! ## Batches and `MTPPO.update` -/

/-- Shapes of the fields of `ReplayBufferSamples` (types.py lines 20-25). -/
structure ReplayBufferSamplesM where
  observations : List Nat
  actions : List Nat
  next_observations : List Nat
  dones : List Nat
  rewards : List Nat
deriving DecidableEq, Repr

/-- Shapes of the fields of `Rollout` (types.py lines 28-43); the auxiliary
and computed fields default to `None` exactly as in the source. -/
structure RolloutM where
  observations : List Nat
  actions : List Nat
  rewards : List Nat
  dones : List Nat
  log_probs : Option (List Nat) := none
  means : Option (List Nat) := none
  stds : Option (List Nat) := none
  values : Option (List Nat) := none
  returns : Option (List Nat) := none
  advantages : Option (List Nat) := none
deriving DecidableEq, Repr

/-- The union type `ReplayBufferSamples | Rollout` of `MTPPO.update`'s batch
argument. -/
inductive BatchM where
  | replay (s : ReplayBufferSamplesM)
  | rollout (r : RolloutM)
deriving DecidableEq, Repr

/-- The ways `MTPPO.update` and its inner steps fail:

* `batchKindMismatch` — `assert isinstance(data, Rollout)` ("MTPPO does not
  support replay buffer samples.");
* `missingLogProbs` / `missingAdvantages` / `missingReturns` — the three
  precondition asserts of `update` (mtppo.py lines 272-276);
* `chexTypeError` — the `TypeError` raised by
  `chex.assert_equal_shape(new_values, data.returns)` (mtppo.py line 236):
  chex's `assert_equal_shape` takes one positional argument (a sequence of
  arrays), so this two-positional-argument call raises on every invocation;
* `noneArithmetic` — a Python `TypeError` from arithmetic on a `None` field
  (`policy_loss` subtracts `data.log_probs` and multiplies by
  `data.advantages`, mtppo.py lines 191 and 210). -/
inductive UpdateError where
  | batchKindMismatch
  | missingLogProbs
  | missingAdvantages
  | missingReturns
  | chexTypeError
  | noneArithmetic
deriving DecidableEq, Repr

/-- Metric keys returned by `update_policy`. -/
def policyLogKeys : List String :=
  ["losses/entropy_loss", "losses/policy_loss", "losses/approx_kl",
   "losses/clip_fracs"]

/-- Metric keys returned by `update_value_function`. -/
def vfLogKeys : List String :=
  ["losses/value_function", "losses/values"]

/-- Embedding of `MTPPO.update_policy(self, data)` (mtppo.py lines 182-230):
split the state key into `(key, policy_loss_key)`; `policy_loss` subtracts
`data.log_probs` and multiplies by `data.advantages`, so a `None` in either is
a `TypeError`; otherwise one gradient step is applied to the policy and the
new key is stored. -/
def MTPPO.update_policy (a : MTPPO) (data : RolloutM) :
    Except UpdateError (MTPPO × List String) :=
  let ks := splitKey a.key
  match data.log_probs with
  | none => .error .noneArithmetic
  | some _ =>
    match data.advantages with
    | none => .error .noneArithmetic
    | some _ =>
      .ok ({ a with policy := a.policy.applyGradients ks.2, key := ks.1 },
           policyLogKeys)

/-- Embedding of `MTPPO.update_value_function(self, data)` (mtppo.py lines
232-259).  The first statement of `value_function_loss` after computing
`new_values` is `chex.assert_equal_shape(new_values, data.returns)`
(line 236); chex's `assert_equal_shape` accepts a single positional argument
(a sequence of arrays), so this two-positional-argument call raises
`TypeError` on every invocation, whatever the rollout holds.  Everything
after it is unreachable: the `assert data.values is None and data.returns is
not None` (line 237) — itself contradicted by the `clip_vf_loss` branch's
`data.values + jnp.clip(new_values - data.values, ...)` two lines below —
the loss computation, and the `apply_gradients` step. -/
def MTPPO.update_value_function (a : MTPPO) (data : RolloutM) :
    Except UpdateError (MTPPO × List String) :=
  .error .chexTypeError

/-- Embedding of the jitted `MTPPO._update_inner(self, data)` (mtppo.py lines
261-265): `update_policy` then `update_value_function`, merging the metric
dictionaries. -/
def MTPPO.updateInner (a : MTPPO) (data : RolloutM) :
    Except UpdateError (MTPPO × List String) :=
  match a.update_policy data with
  | .error e1 => .error e1
  | .ok p1 =>
    match p1.1.update_value_function data with
    | .error e2 => .error e2
    | .ok p2 => .ok (p2.1, p1.2 ++ p2.2)

/-- Embedding of `MTPPO.update(self, data)` (mtppo.py lines 267-277): the four
asserts (batch kind, `log_probs`, `advantages`, `returns`), then
`self._update_inner(data)`. -/
def MTPPO.update (a : MTPPO) (data : BatchM) :
    Except UpdateError (MTPPO × List String) :=
  match data with
  | .replay _ => .error .batchKindMismatch
  | .rollout r =>
    if r.log_probs.isNone then .error .missingLogProbs
    else if r.advantages.isNone then .error .missingAdvantages
    else if r.returns.isNone then .error .missingReturns
    else a.updateInner r

/-! ## Helper facts about the update steps -/

/-- Whether an `Except` computation succeeded. -/
def exceptOk {ε α : Type} : Except ε α → Bool
  | .ok _ => true
  | .error _ => false

instance {ε α : Type} [DecidableEq ε] [DecidableEq α] : DecidableEq (Except ε α)
  | .ok a, .ok b => decidable_of_iff (a = b) (by simp)
  | .ok _, .error _ => isFalse (by simp)
  | .error _, .ok _ => isFalse (by simp)
  | .error a, .error b => decidable_of_iff (a = b) (by simp)

theorem updatePolicy_ne_batchKindMismatch (a : MTPPO) (r : RolloutM) :
    a.update_policy r ≠ Except.error UpdateError.batchKindMismatch := by
  unfold MTPPO.update_policy
  cases h1 : r.log_probs <;> cases h2 : r.advantages <;> simp

theorem updateValueFunction_ne_batchKindMismatch (a : MTPPO) (r : RolloutM) :
    a.update_value_function r ≠ Except.error UpdateError.batchKindMismatch := by
  simp [MTPPO.update_value_function]

theorem updateInner_ne_batchKindMismatch (a : MTPPO) (r : RolloutM) :
    a.updateInner r ≠ Except.error UpdateError.batchKindMismatch := by
  unfold MTPPO.updateInner
  cases hp : a.update_policy r with
  | error e1 =>
    have h := updatePolicy_ne_batchKindMismatch a r
    rw [hp] at h
    simpa using h
  | ok p =>
    dsimp only
    cases hv : p.1.update_value_function r with
    | error e2 =>
      have h := updateValueFunction_ne_batchKindMismatch p.1 r
      rw [hv] at h
      simpa using h
    | ok q => simp

/-! ## Claim C5 -/

/-- C5: for every on-policy MTPPO state, `update` fails with the batch-kind
mismatch assert on every replay-buffer-shaped batch, and never fails with
that error on a `Rollout` batch. -/
theorem C5_update_batch_kind :
    (∀ (a : MTPPO) (s : ReplayBufferSamplesM),
        a.update (BatchM.replay s) = Except.error UpdateError.batchKindMismatch) ∧
    (∀ (a : MTPPO) (r : RolloutM),
        a.update (BatchM.rollout r) ≠ Except.error UpdateError.batchKindMismatch) := by
  constructor
  · intro a s
    rfl
  · intro a r
    have h := updateInner_ne_batchKindMismatch a r
    simp only [MTPPO.update]
    split_ifs with h1 h2 h3 <;> simp_all

/-! ## Claim C8 -/

/-- C8: `sample_action` returns a new state that differs from the input state
only in the internal PRNG key — the policy, value-function, optimizer and
configuration fields are untouched — and the returned action is the sampling
term determined by the input state's policy parameters, the observation and
the key split from the state, so it is a deterministic function of the input
state and observation. -/
theorem C8_sample_action_frame (s : MTPPO) (obs : List Nat) :
    (s.sample_action obs).1 = { s with key := (splitKey s.key).1 } ∧
    (s.sample_action obs).2 = ActionV.sampled s.policy.params obs (splitKey s.key).2 ∧
    (s.sample_action obs).1.policy = s.policy ∧
    (s.sample_action obs).1.value_function = s.value_function ∧
    (∀ t : MTPPO, t.policy = s.policy → t.key = s.key →
        (t.sample_action obs).2 = (s.sample_action obs).2) := by
  refine ⟨rfl, rfl, rfl, rfl, ?_⟩
  intro t hp hk
  simp [MTPPO.sample_action, sampleActionRaw, hp, hk]

/-! ## Claim C9 -/

/-- C9: `eval_action` is policy-only: it returns the distribution mode as a
function of the policy parameters and the observations alone, returns no new
state, and ignores both the PRNG key and the value function, so repeated
calls with the same state and observations agree. -/
theorem C9_eval_action_pure (s : MTPPO) (obs : List Nat) :
    s.eval_action obs = ActionV.mode s.policy.params obs ∧
    (∀ k : Key, MTPPO.eval_action { s with key := k } obs = s.eval_action obs) ∧
    (∀ v : VfTrainState,
        MTPPO.eval_action { s with value_function := v } obs = s.eval_action obs) ∧
    (∀ t : MTPPO, t.policy = s.policy → t.eval_action obs = s.eval_action obs) := by
  refine ⟨rfl, fun k => rfl, fun v => rfl, fun t hp => ?_⟩
  simp [MTPPO.eval_action, evalActionRaw, hp]

/-! ## Claim C6 -/

/-- A concrete MTPPO configuration for concrete evaluations. -/
def cfgC6 : MTPPOConfigM :=
  { num_tasks := 10, gamma := 99/100, clip_eps := 1/5, clip_vf_loss := true,
    entropy_coefficient := 1/200, vf_coefficient := 1/1000,
    normalize_advantages := true }

/-- An environment whose action space is a `Box` with infinite bounds (hence
not a bounded continuous box) and whose observation space is a bounded box. -/
def envC6 : EnvConfigM :=
  { observation_space := .box [some (-1), some (-1)] [some 1, some 1] [2],
    action_space := .box [none] [none] [1] }

/-- C6 counterexample: the claim says `initialize` fails with the
unsupported-space error whenever a space is not a bounded continuous box, but
the source only checks `isinstance(..., gym.spaces.Box)`: on a `Box` action
space with infinite bounds — a box that is not bounded — initialization
succeeds. -/
theorem C6_counterexample :
    GymSpace.isBoundedBox envC6.action_space = false ∧
    GymSpace.isBox envC6.action_space = true ∧
    exceptOk (MTPPO.init cfgC6 envC6 1) = true := by decide

/-- C6 (amended): `initialize` fails with the unsupported-space error exactly
when the observation space or the action space is not a `Box` (boundedness of
the box is not checked), and on success the parameter stores are sized from
the spaces: the policy store records the action dimension
`np.prod(action_space.shape)` and the dummy-observation shape
`[num_tasks, *obs_shape]`, the value-function store records the same
dummy-observation shape, and the algorithm key is split from the seed. -/
theorem C6_init_space_check (config : MTPPOConfigM) (env_config : EnvConfigM)
    (seed : Nat) :
    (MTPPO.init config env_config seed = Except.error InitError.unsupportedSpace ↔
      ¬(env_config.action_space.isBox = true ∧
        env_config.observation_space.isBox = true)) ∧
    (∀ st, MTPPO.init config env_config seed = Except.ok st →
        st.policy.params =
          PolicyParams.init (listProd env_config.action_space.shapeOf)
            (splitKey3 seed).2.1
            (config.num_tasks :: env_config.observation_space.shapeOf) ∧
        st.value_function.params =
          VfParams.init (splitKey3 seed).2.2
            (config.num_tasks :: env_config.observation_space.shapeOf) ∧
        st.key = (splitKey3 seed).1) := by
  by_cases h1 : env_config.action_space.isBox = true
  · by_cases h2 : env_config.observation_space.isBox = true
    · constructor
      · simp [MTPPO.init, h1, h2]
      · intro st hst
        simp only [MTPPO.init, h1, h2, if_true] at hst
        injection hst with hst
        subst hst
        exact ⟨rfl, rfl, rfl⟩
    · constructor
      · simp [MTPPO.init, h1, h2]
      · intro st hst
        simp [MTPPO.init, h1, h2] at hst
  · constructor
    · simp [MTPPO.init, h1]
    · intro st hst
      simp [MTPPO.init, h1] at hst

/-! ## Claim C10 -/

/-- A concrete MTPPO state with the default `clip_vf_loss = True`. -/
def mtppoC10 : MTPPO :=
  { num_tasks := 10,
    policy := { step := 0, params := .init 4 32 [10, 39], optState := 0 },
    value_function := { step := 0, params := .init 33 [10, 39], optState := 0 },
    key := 7, gamma := 99/100, clip_eps := 1/5, clip_vf_loss := true,
    entropy_coefficient := 1/200, vf_coefficient := 1/1000,
    normalize_advantages := true }

/-- A rollout with `log_probs`, `advantages` and `returns` all populated and
`values` left `None`. -/
def rolloutC10 : RolloutM :=
  { observations := [320, 39], actions := [320, 4], rewards := [320, 1],
    dones := [320, 1], log_probs := some [320, 1], values := none,
    returns := some [320, 1], advantages := some [320, 1] }

/-- C10 counterexample: a rollout satisfying all three stated preconditions
(`log_probs`, `advantages`, `returns` populated) on which `update`
nonetheless fails instead of returning `(newState, metrics)`: the
value-function step's mis-called `chex.assert_equal_shape` raises
`TypeError`. -/
theorem C10_counterexample :
    rolloutC10.log_probs.isSome = true ∧
    rolloutC10.advantages.isSome = true ∧
    rolloutC10.returns.isSome = true ∧
    mtppoC10.update (BatchM.rollout rolloutC10) =
      Except.error UpdateError.chexTypeError := by decide

/-- The MTPPO state after the policy half of `_update_inner`: the policy took
one gradient step and the PRNG key advanced. -/
def MTPPO.afterPolicyStep (a : MTPPO) : MTPPO :=
  { a with policy := a.policy.applyGradients (splitKey a.key).2,
           key := (splitKey a.key).1 }

theorem updateInner_chexTypeError (a : MTPPO) (r : RolloutM)
    (hl : r.log_probs.isSome = true) (ha : r.advantages.isSome = true) :
    a.updateInner r = Except.error UpdateError.chexTypeError := by
  obtain ⟨lp, hlp⟩ := Option.isSome_iff_exists.mp hl
  obtain ⟨ad, had⟩ := Option.isSome_iff_exists.mp ha
  have hpol : a.update_policy r = Except.ok (a.afterPolicyStep, policyLogKeys) := by
    simp [MTPPO.update_policy, MTPPO.afterPolicyStep, hlp, had]
  simp [MTPPO.updateInner, hpol, MTPPO.update_value_function]

/-- C10 (amended): on a `Rollout` batch, `update` fails with the
missing-log-probs, missing-advantages or missing-returns assertion error —
checked in that order — unless `log_probs`, `advantages` and `returns` are
all non-None; under those preconditions none of `update`'s own assert
branches fires and it delegates to `_update_inner`, but `_update_inner` never
returns `(newState, metrics)`: the value-function step calls
`chex.assert_equal_shape(new_values, data.returns)` with two positional
arguments where chex's API takes a single positional sequence, a `TypeError`
on every call. -/
theorem C10_update_preconditions (a : MTPPO) (r : RolloutM) :
    (r.log_probs.isNone = true →
        a.update (BatchM.rollout r) =
          Except.error UpdateError.missingLogProbs) ∧
    (r.log_probs.isNone = false → r.advantages.isNone = true →
        a.update (BatchM.rollout r) =
          Except.error UpdateError.missingAdvantages) ∧
    (r.log_probs.isNone = false → r.advantages.isNone = false →
        r.returns.isNone = true →
        a.update (BatchM.rollout r) =
          Except.error UpdateError.missingReturns) ∧
    (r.log_probs.isNone = false → r.advantages.isNone = false →
        r.returns.isNone = false →
        a.update (BatchM.rollout r) = a.updateInner r ∧
        a.update (BatchM.rollout r) =
          Except.error UpdateError.chexTypeError) := by
  refine ⟨?_, ?_, ?_, ?_⟩
  · intro h1
    simp [MTPPO.update, h1]
  · intro h1 h2
    simp [MTPPO.update, h1, h2]
  · intro h1 h2 h3
    simp [MTPPO.update, h1, h2, h3]
  · intro h1 h2 h3
    have hl : r.log_probs.isSome = true := by
      cases hlp : r.log_probs
      · rw [hlp] at h1
        simp at h1
      · simp
    have ha : r.advantages.isSome = true := by
      cases had : r.advantages
      · rw [had] at h2
        simp at h2
      · simp
    have hupd : a.update (BatchM.rollout r) = a.updateInner r := by
      simp [MTPPO.update, h1, h2, h3]
    exact ⟨hupd, hupd.trans (updateInner_chexTypeError a r hl ha)⟩

/-! ## Orchestrator data model (experiment.py, types.py) -/

/-- `CheckpointMetadata` (types.py lines 60-63).  The TypedDict declares
`timestamp` as a `str`, but experiment.py reads it defensively with
`dict.get("timestamp")`, so an `Option` models the possibly-absent field. -/
structure CkptMetadata where
  timestamp : Option String
  step : Nat
  episodes_ended : Nat
deriving DecidableEq, Repr

/-- `RNGCheckpoint` (types.py lines 66-68): opaque serialized states of the
Python `random` PRNG and the global numpy PRNG. -/
structure RngCheckpoint where
  python_rng_state : Nat
  global_numpy_rng_state : Nat
deriving DecidableEq, Repr

/-- One saved checkpoint step's bundle: one named slot per item, each possibly
missing on disk; opaque serialized payloads are `Nat` tokens. -/
structure CheckpointBundle where
  agent : Option Nat
  env_states : Option Nat
  rngs : Option RngCheckpoint
  metadata : Option CkptMetadata
  buffer : Option Nat
deriving DecidableEq, Repr

/-- The on-disk checkpoint store: the saved steps with their bundles. -/
structure CheckpointStore where
  steps : List (Nat × CheckpointBundle)
deriving DecidableEq, Repr

/-- `CheckpointManager.latest_step()`: the highest saved step, if any. -/
def CheckpointStore.latestStep (cs : CheckpointStore) : Option Nat :=
  (cs.steps.map Prod.fst).max?

/-- The bundle stored at a given step. -/
def CheckpointStore.getBundle (cs : CheckpointStore) (s : Nat) :
    Option CheckpointBundle :=
  (cs.steps.find? (fun p => p.1 == s)).map Prod.snd

/-- The fields of `TrainingConfig` that experiment.py consumes: the total step
budget, and whether the value is an `OffPolicyTrainingConfig`. -/
structure TrainingConfigM where
  total_steps : Nat
  offPolicy : Bool
deriving DecidableEq, Repr

/-- The `Experiment` dataclass (experiment.py lines 31-49).  `offPolicy`
records `isinstance(algorithm, OffPolicyAlgorithm)` for the algorithm family
selected by `get_algorithm_for_config(self.algorithm)`; `wandbEnabled` is the
`_wandb_enabled` flag set by `enable_wandb`; `timestamp0` is
`_timestamp = str(int(time.time()))` captured in `__post_init__` at process
start. -/
structure Experiment where
  exp_name : String
  seed : Nat
  data_dir : String
  offPolicy : Bool
  training_config : TrainingConfigM
  checkpoint : Bool
  max_checkpoints_to_keep : Nat
  best_checkpoint_metric : String
  resume : Bool
  wandbEnabled : Bool
  timestamp0 : String
deriving DecidableEq, Repr

/-- The world the run interacts with: the visible accelerator devices
(`jax.device_count("gpu")` / `"tpu"`), the checkpoint store on disk, the
evaluation results `self.env.evaluate` reports, the manager's best-by-metric
step, and the steps (with their metrics) at which the training loop performs
its periodic saves. -/
structure World where
  gpuCount : Nat
  tpuCount : Nat
  store : CheckpointStore
  evalSuccessRate : Rat
  evalReturns : Rat
  evalPerTask : List (String × Rat)
  bestStep : Option Nat
  periodicSaves : List (Nat × List (String × Rat))
deriving DecidableEq, Repr

/-- How a run aborts:

* `acceleratorUnavailable` — the `RuntimeError("No accelerator found...")`
  pre-flight check (experiment.py lines 95-98);
* `checkpointCorrupt` — a restore whose step is missing a requested item;
* `assertionFailed` — one of the orchestrator's Python `assert`s. -/
inductive RunError where
  | acceleratorUnavailable
  | checkpointCorrupt
  | assertionFailed
deriving DecidableEq, Repr

/-- Observable actions of `Experiment.run`, in program order. -/
inductive Effect where
  | spawnEnvs (seed : Nat)
  | initAlgorithm (seed : Nat)
  | openCheckpointManager (items : List String)
  | spawnReplayBuffer
  | restoreCheckpoint (step : Nat) (items : List String)
  | loadEnvCheckpoints (payload : Nat)
  | train
  | evaluate
  | saveCheckpoint (step : Nat) (items : List String)
      (metrics : List (String × Rat))
  | waitUntilFinished
  | publishArtifact (name : String) (step : Nat)
  | closeManager
deriving DecidableEq, Repr

/-- State of a host-side PRNG (`random` / `np.random`): either seeded from
the run seed, or restored from a checkpointed state. -/
inductive RngState where
  | seeded (seed : Nat)
  | restored (payload : Nat)
deriving DecidableEq, Repr

/-- The algorithm value held by the orchestrator: freshly initialized, or
deserialized from a checkpoint's `agent` item. -/
inductive AgentState where
  | initialized (seed : Nat)
  | restored (payload : Nat)
deriving DecidableEq, Repr

/-- Everything the orchestrator holds when it calls `algorithm.train(...)`
(experiment.py lines 171-181). -/
structure PreTrainState where
  algorithm : AgentState
  pythonRng : RngState
  numpyRng : RngState
  bufferCheckpoint : Option Nat
  envsCheckpoint : Option Nat
  checkpointMetadata : Option CkptMetadata
  runTimestamp : String
deriving DecidableEq, Repr

/-- Outcome of `Experiment.run`: the effects performed in order, the error
that aborted the run (if any), and the state passed to `algorithm.train` when
the run reached it. -/
structure RunOutcome where
  trace : List Effect
  error : Option RunError
  preTrain : Option PreTrainState
deriving DecidableEq, Repr

/-- The checkpoint manager's `item_names`, fixed at creation (experiment.py
lines 116-123): the four base slots, plus `buffer` exactly for off-policy
algorithms. -/
def checkpointItems (offPolicy : Bool) : List String :=
  ["agent", "env_states", "rngs", "metadata"] ++
    (if offPolicy then ["buffer"] else [])

/-- The items successfully read back by a full restore. -/
structure RestoredCkpt where
  agent : Nat
  env_states : Nat
  rngs : RngCheckpoint
  metadata : CkptMetadata
  buffer : Option Nat
deriving DecidableEq, Repr

/-- Modelled from the spec: `get_checkpoint_restore_args(algorithm, rb)` lives
in `metaworld_algorithms.checkpoint`, which is not among the source files;
per spec section 4.1 a restore requests `agent`, `env_states`, `rngs` and
`metadata` — plus `buffer` when a replay buffer is passed (off-policy) — and
fails with `CheckpointCorruptError` if any requested item is missing for the
step. -/
def restoreBundle (b : CheckpointBundle) (offPolicy : Bool) :
    Except RunError RestoredCkpt :=
  match b.agent, b.env_states, b.rngs, b.metadata with
  | some ag, some env, some rg, some md =>
    if offPolicy then
      match b.buffer with
      | some bf => .ok ⟨ag, env, rg, md, some bf⟩
      | none => .error .checkpointCorrupt
    else .ok ⟨ag, env, rg, md, none⟩
  | _, _, _, _ => .error .checkpointCorrupt

/-- Embedding of `Experiment.run` up to the `algorithm.train` call
(experiment.py lines 94-164): the accelerator pre-flight check; spawning the
environments; initializing the algorithm; seeding `random` and `np.random`;
when checkpointing is on, opening the manager with the fixed item names and —
when resume is requested and a latest step exists — performing the full
restore of agent, buffer (off-policy), environment states, RNG states and
metadata from that step, adopting the checkpoint's timestamp when present. -/
def startPhase (e : Experiment) (w : World) :
    List Effect × Except RunError PreTrainState :=
  if w.gpuCount < 1 ∧ w.tpuCount < 1 then ([], .error .acceleratorUnavailable)
  else
    let tr := [Effect.spawnEnvs e.seed, Effect.initAlgorithm e.seed]
    let fresh : PreTrainState :=
      { algorithm := .initialized e.seed, pythonRng := .seeded e.seed,
        numpyRng := .seeded e.seed, bufferCheckpoint := none,
        envsCheckpoint := none, checkpointMetadata := none,
        runTimestamp := e.timestamp0 }
    if e.checkpoint then
      let items := checkpointItems e.offPolicy
      let tr := tr ++ [Effect.openCheckpointManager items]
      match w.store.latestStep with
      | some s =>
        if e.resume then
          if e.offPolicy ∧ ¬ e.training_config.offPolicy then
            (tr, .error .assertionFailed)
          else
            let tr := tr ++ (if e.offPolicy then [Effect.spawnReplayBuffer] else [])
            match w.store.getBundle s with
            | none => (tr, .error .checkpointCorrupt)
            | some b =>
              match restoreBundle b e.offPolicy with
              | .error err => (tr, .error err)
              | .ok r =>
                (tr ++ [Effect.restoreCheckpoint s items,
                        Effect.loadEnvCheckpoints r.env_states],
                 .ok { algorithm := .restored r.agent,
                       pythonRng := .restored r.rngs.python_rng_state,
                       numpyRng := .restored r.rngs.global_numpy_rng_state,
                       bufferCheckpoint := r.buffer,
                       envsCheckpoint := some r.env_states,
                       checkpointMetadata := some r.metadata,
                       runTimestamp := r.metadata.timestamp.getD e.timestamp0 })
        else (tr, .ok fresh)
      | none => (tr, .ok fresh)
    else (tr, .ok fresh)

/-- Modelled from the spec: the periodic saves of `algorithm.train` (module
`metaworld_algorithms.rl.algorithms.base`, not among the source files) —
per spec section 4.4, every `checkpointInterval` steps the loop triggers a
save with current metrics, using the manager's fixed slot set. -/
def trainEffects (e : Experiment) (w : World) : List Effect :=
  (if e.checkpoint then
    w.periodicSaves.map
      (fun p => Effect.saveCheckpoint p.1 (checkpointItems e.offPolicy) p.2)
   else []) ++ [Effect.train]

/-- The `final_metrics` dictionary built from `self.env.evaluate(envs, agent)`
(experiment.py lines 186-195). -/
def finalMetricsOf (w : World) : List (String × Rat) :=
  [("mean_success_rate", w.evalSuccessRate),
   ("mean_evaluation_return", w.evalReturns)] ++
    w.evalPerTask.map (fun p => (p.1 ++ "_success_rate", p.2))

/-- Embedding of `Experiment.run` from the `algorithm.train` call to the end
(experiment.py lines 166-228): training (with the loop's periodic saves),
then — only when wandb is enabled and checkpointing is on — evaluation, the
final checkpoint save at `total_steps + 1` carrying the evaluation metrics
(`get_last_agent_checkpoint_save_args` is modelled from the spec as writing
the run's fixed slot set), `wait_until_finished`, the final-step artifact,
the `best_step()` assert, the best-step artifact; finally the manager is
closed whenever it was opened. -/
def finishRun (e : Experiment) (w : World) (tr : List Effect)
    (pre : PreTrainState) : RunOutcome :=
  let items := checkpointItems e.offPolicy
  let tr1 := tr ++ trainEffects e w
  if e.wandbEnabled then
    if e.checkpoint then
      let tr2 := tr1 ++ [Effect.evaluate,
        Effect.saveCheckpoint (e.training_config.total_steps + 1) items
          (finalMetricsOf w),
        Effect.waitUntilFinished,
        Effect.publishArtifact "final_agent_checkpoint"
          (e.training_config.total_steps + 1)]
      match w.bestStep with
      | none => { trace := tr2, error := some .assertionFailed,
                  preTrain := some pre }
      | some b =>
        { trace := tr2 ++ [Effect.publishArtifact "best_agent_checkpoint" b,
            Effect.closeManager],
          error := none, preTrain := some pre }
    else { trace := tr1, error := none, preTrain := some pre }
  else
    { trace := tr1 ++ (if e.checkpoint then [Effect.closeManager] else []),
      error := none, preTrain := some pre }

/-- Embedding of `Experiment.run(self)` (experiment.py lines 94-228). -/
def Experiment.run (e : Experiment) (w : World) : RunOutcome :=
  match startPhase e w with
  | (tr, .error err) => { trace := tr, error := some err, preTrain := none }
  | (tr, .ok pre) => finishRun e w tr pre

/-! ## `enable_wandb` and the tracking run id (experiment.py lines 54-92) -/

/-- Embedding of `Experiment._get_latest_checkpoint_metadata` (experiment.py
lines 54-71): probe the store for the latest step and restore only its
`metadata` item (`get_metadata_only_restore_args`, modelled from the spec as
failing when the item is missing); `None` when no checkpoint exists. -/
def getLatestCheckpointMetadata (w : World) :
    Except RunError (Option CkptMetadata) :=
  match w.store.latestStep with
  | none => .ok none
  | some s =>
    match w.store.getBundle s with
    | none => .error .checkpointCorrupt
    | some b =>
      match b.metadata with
      | some md => .ok (some md)
      | none => .error .checkpointCorrupt

/-- Python truthiness of `metadata.get("timestamp")`: `if not x` is taken both
when the key is absent and when it holds the empty string. -/
def pyFalsy : Option String → Bool
  | none => true
  | some s => s == ""

/-- Result of `wandb.init(..., id=run_id, ...)` as the orchestrator derives
it: the run id, and whether the missing-timestamp warning was printed. -/
structure WandbInit where
  run_id : String
  warned : Bool
deriving DecidableEq, Repr

/-- The id `f"{ts}_{exp_name}_{seed}"`. -/
def runIdWithTs (ts name : String) (seed : Nat) : String :=
  ts ++ "_" ++ name ++ "_" ++ toString seed

/-- The fallback id `f"{exp_name}_{seed}"`. -/
def runIdBare (name : String) (seed : Nat) : String :=
  name ++ "_" ++ toString seed

/-- Embedding of `Experiment.enable_wandb` (experiment.py lines 73-92): probe
the latest checkpoint's metadata; when resuming with an existing checkpoint,
derive the run id from the checkpoint timestamp, falling back (with a
warning) to the non-timestamped id when `metadata.get("timestamp")` is falsy;
otherwise derive it from the process-start timestamp. -/
def Experiment.enable_wandb (e : Experiment) (w : World) :
    Except RunError WandbInit :=
  match getLatestCheckpointMetadata w with
  | .error err => .error err
  | .ok md =>
    match md with
    | some m =>
      if e.resume then
        if pyFalsy m.timestamp then
          .ok { run_id := runIdBare e.exp_name e.seed, warned := true }
        else
          .ok { run_id := runIdWithTs (m.timestamp.getD "") e.exp_name e.seed,
                warned := false }
      else .ok { run_id := runIdWithTs e.timestamp0 e.exp_name e.seed,
                 warned := false }
    | none => .ok { run_id := runIdWithTs e.timestamp0 e.exp_name e.seed,
                    warned := false }

/-! ## Concrete run configurations for concrete evaluations -/

/-- A concrete baseline experiment: on-policy, checkpointing on, resume and
wandb off. -/
def expBase : Experiment :=
  { exp_name := "exp", seed := 7, data_dir := "data", offPolicy := false,
    training_config := { total_steps := 100, offPolicy := false },
    checkpoint := true, max_checkpoints_to_keep := 5,
    best_checkpoint_metric := "mean_success_rate", resume := false,
    wandbEnabled := false, timestamp0 := "1700000000" }

/-- A concrete baseline world: one GPU, empty checkpoint store. -/
def wldBase : World :=
  { gpuCount := 1, tpuCount := 0, store := { steps := [] },
    evalSuccessRate := 1/2, evalReturns := 10,
    evalPerTask := [("reach", 1)], bestStep := none, periodicSaves := [] }

/-- A complete checkpoint bundle whose metadata carries a timestamp. -/
def bundle40 : CheckpointBundle :=
  { agent := some 11, env_states := some 12,
    rngs := some { python_rng_state := 13, global_numpy_rng_state := 14 },
    metadata := some { timestamp := some "1690000000", step := 40,
                       episodes_ended := 8 },
    buffer := some 15 }

/-! ## Claim C7 -/

/-- C7: with no GPU or TPU device visible, `run` aborts with the accelerator
error before doing anything at all: the effect trace is empty — no
environments spawned, no algorithm initialized, no checkpoint manager opened —
and neither the fresh-start nor the resume-probe path is entered. -/
theorem C7_accelerator_required (e : Experiment) (w : World)
    (h : w.gpuCount < 1 ∧ w.tpuCount < 1) :
    (e.run w).error = some RunError.acceleratorUnavailable ∧
    (e.run w).trace = [] ∧ (e.run w).preTrain = none := by
  have hsp : startPhase e w =
      ([], Except.error RunError.acceleratorUnavailable) := by
    unfold startPhase
    rw [if_pos h]
  simp [Experiment.run, hsp]

/-- A concrete world with no accelerator devices. -/
def wldNoAccel : World := { wldBase with gpuCount := 0, tpuCount := 0 }

/-- C7 witness: the pre-flight abort at a concrete accelerator-less world. -/
theorem C7_witness :
    (expBase.run wldNoAccel).error = some RunError.acceleratorUnavailable ∧
    (expBase.run wldNoAccel).trace = [] ∧
    (expBase.run wldNoAccel).preTrain = none :=
  C7_accelerator_required expBase wldNoAccel (by decide)

/-! ## Claim C2 -/

/-- C2 (amended): for every resumed run whose latest checkpoint metadata
carries a non-empty timestamp `T`, the derived tracking id is
`f"{T}_{name}_{seed}"`; when the timestamp is missing the id is
`f"{name}_{seed}"` and the warning is printed; a non-resumed run derives the
id from the process-start timestamp.  (An empty-string timestamp is treated
like a missing one by Python truthiness — the one divergence from the claim
as stated.) -/
theorem C2_run_id_derivation (e : Experiment) (w : World) (m : CkptMetadata)
    (hmd : getLatestCheckpointMetadata w = Except.ok (some m)) :
    (∀ t : String, e.resume = true → m.timestamp = some t → t ≠ "" →
        e.enable_wandb w = Except.ok
          { run_id := runIdWithTs t e.exp_name e.seed, warned := false }) ∧
    (e.resume = true → (m.timestamp = none ∨ m.timestamp = some "") →
        e.enable_wandb w = Except.ok
          { run_id := runIdBare e.exp_name e.seed, warned := true }) ∧
    (e.resume = false →
        e.enable_wandb w = Except.ok
          { run_id := runIdWithTs e.timestamp0 e.exp_name e.seed,
            warned := false }) := by
  refine ⟨?_, ?_, ?_⟩
  · intro t hres ht hne
    simp [Experiment.enable_wandb, hmd, hres, pyFalsy, ht, hne]
  · intro hres hts
    rcases hts with ht | ht <;>
      simp [Experiment.enable_wandb, hmd, hres, ht, pyFalsy]
  · intro hres
    simp [Experiment.enable_wandb, hmd, hres]

/-- The metadata stored in `bundle40`. -/
def mC2 : CkptMetadata :=
  { timestamp := some "1690000000", step := 40, episodes_ended := 8 }

/-- A world whose store holds one complete checkpoint at step 40. -/
def wldC2 : World := { wldBase with store := { steps := [(40, bundle40)] } }

/-- A resumed variant of the baseline experiment. -/
def expResume : Experiment := { expBase with resume := true }

/-- C2 witness: the id derivation applied at a concrete resumed run whose
latest checkpoint carries the timestamp `"1690000000"`. -/
theorem C2_witness :
    getLatestCheckpointMetadata wldC2 = Except.ok (some mC2) ∧
    ((∀ t : String, expResume.resume = true → mC2.timestamp = some t → t ≠ "" →
        expResume.enable_wandb wldC2 = Except.ok
          { run_id := runIdWithTs t expResume.exp_name expResume.seed,
            warned := false }) ∧
     (expResume.resume = true →
        (mC2.timestamp = none ∨ mC2.timestamp = some "") →
        expResume.enable_wandb wldC2 = Except.ok
          { run_id := runIdBare expResume.exp_name expResume.seed,
            warned := true }) ∧
     (expResume.resume = false →
        expResume.enable_wandb wldC2 = Except.ok
          { run_id := runIdWithTs expResume.timestamp0 expResume.exp_name
              expResume.seed,
            warned := false })) :=
  ⟨by decide, C2_run_id_derivation expResume wldC2 mC2 (by decide)⟩

/-- Metadata whose timestamp is present but empty. -/
def mC2empty : CkptMetadata := { timestamp := some "", step := 3, episodes_ended := 5 }

/-- A world whose latest checkpoint's metadata has the empty-string
timestamp. -/
def wldC2empty : World :=
  { wldBase with
    store := { steps := [(3, { bundle40 with metadata := some mC2empty })] } }

/-- C2 counterexample: a resumed run whose latest checkpoint metadata contains
the timestamp `""`.  The claim's formula predicts the id `"_exp_7"`, but the
code treats the falsy timestamp as missing: it derives `"exp_7"` and warns. -/
theorem C2_counterexample :
    expResume.resume = true ∧
    getLatestCheckpointMetadata wldC2empty = Except.ok (some mC2empty) ∧
    mC2empty.timestamp = some "" ∧
    expResume.enable_wandb wldC2empty =
      Except.ok { run_id := "exp_7", warned := true } ∧
    runIdWithTs "" expResume.exp_name expResume.seed ≠ "exp_7" := by decide

/-! ## Claim C1 -/

theorem restoreBundle_buffer_eq (b : CheckpointBundle) (c : Bool)
    (rc : RestoredCkpt) (h : restoreBundle b c = Except.ok rc) :
    rc.buffer.isSome = c := by
  unfold restoreBundle at h
  cases hag : b.agent with
  | none => rw [hag] at h; simp at h
  | some ag =>
  cases henv : b.env_states with
  | none => rw [hag, henv] at h; simp at h
  | some env =>
  cases hrg : b.rngs with
  | none => rw [hag, henv, hrg] at h; simp at h
  | some rg =>
  cases hmd : b.metadata with
  | none => rw [hag, henv, hrg, hmd] at h; simp at h
  | some md =>
    rw [hag, henv, hrg, hmd] at h
    dsimp only at h
    cases c with
    | false =>
      simp only [Bool.false_eq_true, if_false] at h
      injection h with h
      subst h
      rfl
    | true =>
      simp only [if_true] at h
      cases hbf : b.buffer with
      | none => rw [hbf] at h; simp at h
      | some bf =>
        rw [hbf] at h
        injection h with h
        subst h
        rfl

theorem train_mem_trainEffects (e : Experiment) (w : World) :
    Effect.train ∈ trainEffects e w := by
  unfold trainEffects
  simp

theorem finishRun_preTrain (e : Experiment) (w : World) (tr : List Effect)
    (pre : PreTrainState) : (finishRun e w tr pre).preTrain = some pre := by
  unfold finishRun
  dsimp only
  split_ifs
  · cases w.bestStep <;> rfl
  · rfl
  · rfl
  · rfl

theorem finishRun_trace_append (e : Experiment) (w : World) (tr : List Effect)
    (pre : PreTrainState) :
    ∃ rest, (finishRun e w tr pre).trace = tr ++ trainEffects e w ++ rest := by
  unfold finishRun
  dsimp only
  split_ifs
  · cases w.bestStep with
    | none => exact ⟨_, rfl⟩
    | some b => exact ⟨_, List.append_assoc _ _ _⟩
  · exact ⟨[], (List.append_nil _).symm⟩
  · exact ⟨_, rfl⟩
  · exact ⟨_, rfl⟩

theorem startPhase_resume (e : Experiment) (w : World) (s : Nat)
    (hacc : ¬(w.gpuCount < 1 ∧ w.tpuCount < 1))
    (hc : e.checkpoint = true) (hr : e.resume = true)
    (hs : w.store.latestStep = some s) :
    startPhase e w =
      (if e.offPolicy ∧ ¬ e.training_config.offPolicy then
        ([Effect.spawnEnvs e.seed, Effect.initAlgorithm e.seed,
          Effect.openCheckpointManager (checkpointItems e.offPolicy)],
         Except.error RunError.assertionFailed)
      else
        let tr := [Effect.spawnEnvs e.seed, Effect.initAlgorithm e.seed,
          Effect.openCheckpointManager (checkpointItems e.offPolicy)] ++
          (if e.offPolicy then [Effect.spawnReplayBuffer] else [])
        match w.store.getBundle s with
        | none => (tr, Except.error RunError.checkpointCorrupt)
        | some b =>
          match restoreBundle b e.offPolicy with
          | .error err => (tr, .error err)
          | .ok rc =>
            (tr ++ [Effect.restoreCheckpoint s (checkpointItems e.offPolicy),
                    Effect.loadEnvCheckpoints rc.env_states],
             .ok { algorithm := .restored rc.agent,
                   pythonRng := .restored rc.rngs.python_rng_state,
                   numpyRng := .restored rc.rngs.global_numpy_rng_state,
                   bufferCheckpoint := rc.buffer,
                   envsCheckpoint := some rc.env_states,
                   checkpointMetadata := some rc.metadata,
                   runTimestamp := rc.metadata.timestamp.getD e.timestamp0 })) := by
  unfold startPhase
  rw [if_neg hacc]
  simp [hc, hs, hr]

/-- C1: when checkpointing is on, resume is requested and a latest checkpoint
step exists, the run either aborts before training ever starts (no silent
fallback to a fresh start) or reaches training with the agent, environment
states, Python and numpy RNG states and metadata all restored from that same
latest step's bundle — and with the replay buffer restored exactly when the
algorithm is off-policy.  There is no partially restored outcome. -/
theorem C1_resume_all_or_nothing (e : Experiment) (w : World) (s : Nat)
    (hc : e.checkpoint = true) (hr : e.resume = true)
    (hs : w.store.latestStep = some s) :
    (∃ err, (e.run w).error = some err ∧ (e.run w).preTrain = none ∧
        Effect.train ∉ (e.run w).trace) ∨
    (∃ b rc, w.store.getBundle s = some b ∧
        restoreBundle b e.offPolicy = Except.ok rc ∧
        Effect.restoreCheckpoint s (checkpointItems e.offPolicy) ∈
          (e.run w).trace ∧
        Effect.train ∈ (e.run w).trace ∧
        (e.run w).preTrain = some
          { algorithm := AgentState.restored rc.agent,
            pythonRng := RngState.restored rc.rngs.python_rng_state,
            numpyRng := RngState.restored rc.rngs.global_numpy_rng_state,
            bufferCheckpoint := rc.buffer,
            envsCheckpoint := some rc.env_states,
            checkpointMetadata := some rc.metadata,
            runTimestamp := rc.metadata.timestamp.getD e.timestamp0 } ∧
        rc.buffer.isSome = e.offPolicy) := by
  by_cases hacc : w.gpuCount < 1 ∧ w.tpuCount < 1
  · have h7 : startPhase e w =
        ([], Except.error RunError.acceleratorUnavailable) := by
      unfold startPhase
      rw [if_pos hacc]
    refine Or.inl ⟨RunError.acceleratorUnavailable, ?_, ?_, ?_⟩ <;>
      simp [Experiment.run, h7]
  · have hsp := startPhase_resume e w s hacc hc hr hs
    by_cases hassert : e.offPolicy ∧ ¬ e.training_config.offPolicy
    · rw [if_pos hassert] at hsp
      refine Or.inl ⟨RunError.assertionFailed, ?_, ?_, ?_⟩ <;>
        simp [Experiment.run, hsp]
    · rw [if_neg hassert] at hsp
      dsimp only at hsp
      cases hb : w.store.getBundle s with
      | none =>
        rw [hb] at hsp
        dsimp only at hsp
        refine Or.inl ⟨RunError.checkpointCorrupt, ?_, ?_, ?_⟩ <;>
          simp [Experiment.run, hsp]
      | some b =>
        rw [hb] at hsp
        dsimp only at hsp
        cases hrb : restoreBundle b e.offPolicy with
        | error err =>
          rw [hrb] at hsp
          dsimp only at hsp
          refine Or.inl ⟨err, ?_, ?_, ?_⟩ <;>
            simp [Experiment.run, hsp]
        | ok rc =>
          rw [hrb] at hsp
          dsimp only at hsp
          have hrun : e.run w = finishRun e w
              (([Effect.spawnEnvs e.seed, Effect.initAlgorithm e.seed,
                 Effect.openCheckpointManager (checkpointItems e.offPolicy)] ++
                (if e.offPolicy then [Effect.spawnReplayBuffer] else [])) ++
               [Effect.restoreCheckpoint s (checkpointItems e.offPolicy),
                Effect.loadEnvCheckpoints rc.env_states])
              { algorithm := .restored rc.agent,
                pythonRng := .restored rc.rngs.python_rng_state,
                numpyRng := .restored rc.rngs.global_numpy_rng_state,
                bufferCheckpoint := rc.buffer,
                envsCheckpoint := some rc.env_states,
                checkpointMetadata := some rc.metadata,
                runTimestamp := rc.metadata.timestamp.getD e.timestamp0 } := by
            simp [Experiment.run, hsp]
          obtain ⟨rest, htr⟩ := finishRun_trace_append e w
            (([Effect.spawnEnvs e.seed, Effect.initAlgorithm e.seed,
               Effect.openCheckpointManager (checkpointItems e.offPolicy)] ++
              (if e.offPolicy then [Effect.spawnReplayBuffer] else [])) ++
             [Effect.restoreCheckpoint s (checkpointItems e.offPolicy),
              Effect.loadEnvCheckpoints rc.env_states])
            { algorithm := .restored rc.agent,
              pythonRng := .restored rc.rngs.python_rng_state,
              numpyRng := .restored rc.rngs.global_numpy_rng_state,
              bufferCheckpoint := rc.buffer,
              envsCheckpoint := some rc.env_states,
              checkpointMetadata := some rc.metadata,
              runTimestamp := rc.metadata.timestamp.getD e.timestamp0 }
          refine Or.inr ⟨b, rc, rfl, hrb, ?_, ?_, ?_,
            restoreBundle_buffer_eq b e.offPolicy rc hrb⟩
          · rw [hrun, htr]
            simp
          · rw [hrun, htr]
            simp [train_mem_trainEffects e w]
          · rw [hrun, finishRun_preTrain]

/-- C1 witness: the all-or-nothing resume applied at a concrete resumed run
whose store holds one complete checkpoint at step 40. -/
theorem C1_witness :
    (∃ err, (expResume.run wldC2).error = some err ∧
        (expResume.run wldC2).preTrain = none ∧
        Effect.train ∉ (expResume.run wldC2).trace) ∨
    (∃ b rc, wldC2.store.getBundle 40 = some b ∧
        restoreBundle b expResume.offPolicy = Except.ok rc ∧
        Effect.restoreCheckpoint 40 (checkpointItems expResume.offPolicy) ∈
          (expResume.run wldC2).trace ∧
        Effect.train ∈ (expResume.run wldC2).trace ∧
        (expResume.run wldC2).preTrain = some
          { algorithm := AgentState.restored rc.agent,
            pythonRng := RngState.restored rc.rngs.python_rng_state,
            numpyRng := RngState.restored rc.rngs.global_numpy_rng_state,
            bufferCheckpoint := rc.buffer,
            envsCheckpoint := some rc.env_states,
            checkpointMetadata := some rc.metadata,
            runTimestamp := rc.metadata.timestamp.getD expResume.timestamp0 } ∧
        rc.buffer.isSome = expResume.offPolicy) :=
  C1_resume_all_or_nothing expResume wldC2 40 (by decide) (by decide) (by decide)

/-! ## Claim C4 -/

theorem startPhase_no_saves (e : Experiment) (w : World) (st : Nat)
    (items : List String) (m : List (String × Rat)) :
    Effect.saveCheckpoint st items m ∉ (startPhase e w).1 := by
  unfold startPhase
  repeat' split
  all_goals simp

theorem open_mem_startPhase (e : Experiment) (w : World)
    (hacc : ¬(w.gpuCount < 1 ∧ w.tpuCount < 1)) (hc : e.checkpoint = true) :
    Effect.openCheckpointManager (checkpointItems e.offPolicy) ∈
      (startPhase e w).1 := by
  unfold startPhase
  repeat' split
  all_goals simp_all

theorem trainEffects_saves (e : Experiment) (w : World) (st : Nat)
    (items : List String) (m : List (String × Rat))
    (h : Effect.saveCheckpoint st items m ∈ trainEffects e w) :
    items = checkpointItems e.offPolicy := by
  unfold trainEffects at h
  rw [List.mem_append] at h
  rcases h with h | h
  · split at h
    · obtain ⟨p, hp, heq⟩ := List.mem_map.mp h
      injection heq with h1 h2 h3
      exact h2.symm
    · simp at h
  · simp at h

theorem finishRun_saves (e : Experiment) (w : World) (tr : List Effect)
    (pre : PreTrainState) (st : Nat) (items : List String)
    (m : List (String × Rat))
    (h : Effect.saveCheckpoint st items m ∈ (finishRun e w tr pre).trace) :
    Effect.saveCheckpoint st items m ∈ tr ∨
      items = checkpointItems e.offPolicy := by
  unfold finishRun at h
  dsimp only at h
  split_ifs at h
  · cases hbs : w.bestStep with
    | none =>
      rw [hbs] at h
      dsimp only at h
      simp only [List.mem_append] at h
      rcases h with (h | h) | h
      · exact Or.inl h
      · exact Or.inr (trainEffects_saves e w st items m h)
      · simp at h
        exact Or.inr h.2.1
    | some b =>
      rw [hbs] at h
      dsimp only at h
      simp only [List.mem_append] at h
      rcases h with ((h | h) | h) | h
      · exact Or.inl h
      · exact Or.inr (trainEffects_saves e w st items m h)
      · simp at h
        exact Or.inr h.2.1
      · simp at h
  · simp only [List.mem_append] at h
    rcases h with h | h
    · exact Or.inl h
    · exact Or.inr (trainEffects_saves e w st items m h)
  · simp only [List.mem_append] at h
    rcases h with (h | h) | h
    · exact Or.inl h
    · exact Or.inr (trainEffects_saves e w st items m h)
    · simp at h
  · simp only [List.mem_append] at h
    rcases h with (h | h) | h
    · exact Or.inl h
    · exact Or.inr (trainEffects_saves e w st items m h)
    · simp at h

/-- C4: with an accelerator present and checkpointing enabled, the run opens
the checkpoint manager with the slot set fixed once from the algorithm
family — exactly agent, env_states, rngs, metadata for on-policy algorithms,
with buffer appended exactly when the algorithm is off-policy — and every
checkpoint step saved during the run (the training loop's periodic saves and
the final save alike) uses that same slot set. -/
theorem C4_fixed_slot_set (e : Experiment) (w : World)
    (hacc : ¬(w.gpuCount < 1 ∧ w.tpuCount < 1)) (hc : e.checkpoint = true) :
    Effect.openCheckpointManager (checkpointItems e.offPolicy) ∈
      (e.run w).trace ∧
    (e.offPolicy = false → checkpointItems e.offPolicy =
      ["agent", "env_states", "rngs", "metadata"]) ∧
    (e.offPolicy = true → checkpointItems e.offPolicy =
      ["agent", "env_states", "rngs", "metadata", "buffer"]) ∧
    (∀ st items m, Effect.saveCheckpoint st items m ∈ (e.run w).trace →
        items = checkpointItems e.offPolicy) := by
  have hmem := open_mem_startPhase e w hacc hc
  refine ⟨?_, ?_, ?_, ?_⟩
  · rcases hsp : startPhase e w with ⟨tr, res⟩
    rw [hsp] at hmem
    cases res with
    | error err =>
      simp only [Experiment.run, hsp]
      exact hmem
    | ok pre =>
      have hrun : e.run w = finishRun e w tr pre := by
        simp [Experiment.run, hsp]
      obtain ⟨rest, htr⟩ := finishRun_trace_append e w tr pre
      rw [hrun, htr]
      simp only [List.mem_append]
      exact Or.inl (Or.inl hmem)
  · intro ho
    simp [checkpointItems, ho]
  · intro ho
    simp [checkpointItems, ho]
  · intro st items m hmm
    rcases hsp : startPhase e w with ⟨tr, res⟩
    have hnos := startPhase_no_saves e w st items m
    rw [hsp] at hnos
    cases res with
    | error err =>
      rw [show e.run w = { trace := tr, error := some err, preTrain := none }
        from by simp [Experiment.run, hsp]] at hmm
      exact absurd hmm hnos
    | ok pre =>
      rw [show e.run w = finishRun e w tr pre
        from by simp [Experiment.run, hsp]] at hmm
      rcases finishRun_saves e w tr pre st items m hmm with h | h
      · exact absurd h hnos
      · exact h

/-- C4 witness: the fixed slot set at a concrete on-policy checkpointing
run. -/
theorem C4_witness :
    Effect.openCheckpointManager (checkpointItems expBase.offPolicy) ∈
      (expBase.run wldBase).trace ∧
    (expBase.offPolicy = false → checkpointItems expBase.offPolicy =
      ["agent", "env_states", "rngs", "metadata"]) ∧
    (expBase.offPolicy = true → checkpointItems expBase.offPolicy =
      ["agent", "env_states", "rngs", "metadata", "buffer"]) ∧
    (∀ st items m,
        Effect.saveCheckpoint st items m ∈ (expBase.run wldBase).trace →
        items = checkpointItems expBase.offPolicy) :=
  C4_fixed_slot_set expBase wldBase (by decide) (by decide)

/-! ## Claim C3 -/

/-- Whether an effect is a checkpoint save. -/
def Effect.isSaveCk : Effect → Bool
  | .saveCheckpoint _ _ _ => true
  | _ => false

/-- Whether an effect publishes an artifact. -/
def Effect.isPublish : Effect → Bool
  | .publishArtifact _ _ => true
  | _ => false

/-- C3 counterexample: checkpointing is enabled but tracking (wandb) is not.
The run completes training, yet performs no final save, never waits for
durability and publishes no artifacts: the claim's guard "whenever
checkpointing is enabled" is wrong — the source's finalization block
additionally requires `_wandb_enabled`. -/
theorem C3_counterexample :
    expBase.checkpoint = true ∧ expBase.wandbEnabled = false ∧
    (expBase.run wldBase).error = none ∧
    Effect.train ∈ (expBase.run wldBase).trace ∧
    Effect.waitUntilFinished ∉ (expBase.run wldBase).trace ∧
    (expBase.run wldBase).trace.all (fun ef => !ef.isSaveCk) = true ∧
    (expBase.run wldBase).trace.all (fun ef => !ef.isPublish) = true := by
  decide

/-- C3 (amended): whenever checkpointing AND tracking (wandb) are both
enabled and the run completes without an error, the trace ends with — in this
order — the final evaluation, one checkpoint save at step `total_steps + 1`
carrying the evaluation metrics, the durability barrier
(`wait_until_finished`), the final-step artifact publication, the
best-by-metric-step artifact publication, and the manager close. -/
theorem C3_final_save_then_artifacts (e : Experiment) (w : World)
    (hw : e.wandbEnabled = true) (hc : e.checkpoint = true) (b : Nat)
    (hb : w.bestStep = some b) (hok : (e.run w).error = none) :
    ∃ tr0, (e.run w).trace = tr0 ++ [Effect.evaluate,
      Effect.saveCheckpoint (e.training_config.total_steps + 1)
        (checkpointItems e.offPolicy) (finalMetricsOf w),
      Effect.waitUntilFinished,
      Effect.publishArtifact "final_agent_checkpoint"
        (e.training_config.total_steps + 1),
      Effect.publishArtifact "best_agent_checkpoint" b,
      Effect.closeManager] := by
  rcases hsp : startPhase e w with ⟨tr, res⟩
  cases res with
  | error err =>
    rw [show e.run w = { trace := tr, error := some err, preTrain := none }
      from by simp [Experiment.run, hsp]] at hok
    simp at hok
  | ok pre =>
    rw [show e.run w = finishRun e w tr pre
      from by simp [Experiment.run, hsp]]
    refine ⟨tr ++ trainEffects e w, ?_⟩
    simp [finishRun, hw, hc, hb, List.append_assoc]

/-- The baseline experiment with wandb tracking enabled. -/
def expWandb : Experiment := { expBase with wandbEnabled := true }

/-- The baseline world with a best step recorded. -/
def wldBest : World := { wldBase with bestStep := some 40 }

/-- C3 witness: the finalization suffix at a concrete run with both
checkpointing and wandb enabled. -/
theorem C3_witness :
    (expWandb.run wldBest).error = none ∧
    (∃ tr0, (expWandb.run wldBest).trace = tr0 ++ [Effect.evaluate,
      Effect.saveCheckpoint (expWandb.training_config.total_steps + 1)
        (checkpointItems expWandb.offPolicy) (finalMetricsOf wldBest),
      Effect.waitUntilFinished,
      Effect.publishArtifact "final_agent_checkpoint"
        (expWandb.training_config.total_steps + 1),
      Effect.publishArtifact "best_agent_checkpoint" 40,
      Effect.closeManager]) :=
  ⟨by decide,
   C3_final_save_then_artifacts expWandb wldBest rfl rfl 40 rfl (by decide)⟩
